import Mathlib

/-!
# Verification of the cryptoshare/order trade-execution core

Shallow embedding of the position sizer (`BybitTrader.calculate_position_size`),
the bracket order placer (`BybitTrader.place_limit_order`), the trade executor
(`BybitTrader.execute_trade`) and the webhook validator
(`TradingWebhookHandler.validate_webhook_data`).

Numeric values are modelled by exact rationals (the Python source performs the
same operations on floats; `//` is floor division, modelled by `Int.floor`).
The exchange gateway is modelled by an environment: an optional USDT balance,
optional instrument metadata, and an oracle assigning a response to each
successive `place_order` call.  Every function additionally returns the list of
requests it submitted to the exchange, so that claims about "which calls were
made" are expressible.
-/

namespace Cryptoshare

/-- A response from the exchange's place-order endpoint: a return code
(`0` = success) and an order id. -/
structure OrderResp where
  retCode : Int
  orderId : String
deriving Repr, DecidableEq

/-- `BybitTrader.calculate_position_size` (bybit_trader.py lines 75-130),
with the account-balance lookup abstracted to an `Option ℚ` argument
(`none` = balance unavailable, i.e. the `account_info` guard fails) and the
instrument's `lotSizeFilter` fields passed directly.  Follows the source:
risk amount, stop distance guard, floor to the step, clamp to `minOrderQty`,
then the 5-USDT minimum-notional correction which rounds up to the next step
multiple and clamps again. -/
def calculate_position_size (risk_pct stop_loss entry_price : ℚ)
    (usdt_balance : Option ℚ) (min_order_qty qty_step : ℚ) : ℚ :=
  match usdt_balance with
  | none => 0
  | some bal =>
    if bal = 0 then 0
    else
      let risk_amount := bal * (risk_pct / 100)
      let stop_distance := |entry_price - stop_loss|
      if stop_distance = 0 then 0
      else
        let position_size := risk_amount / stop_distance
        let position_size' := (⌊position_size / qty_step⌋ : ℚ) * qty_step
        let position_size'' := max position_size' min_order_qty
        let min_order_value : ℚ := 5
        let min_position_size := min_order_value / entry_price
        if position_size'' * entry_price < min_order_value then
          let ps := ((⌊min_position_size / qty_step⌋ : ℚ) + 1) * qty_step
          max ps min_order_qty
        else
          position_size''

/-- Python's `str.lower()` on the side string, modelled character-wise. -/
def strLower (s : String) : String := ⟨s.data.map Char.toLower⟩

/-- Python's `symbol.replace('/', '')` (HYPE/USDT → HYPEUSDT), modelled as
removing every slash character. -/
def stripSlash (s : String) : String := ⟨s.data.filter (fun c => c ≠ '/')⟩

/-- One take-profit (or entry-order) element of the limit plan: a price and a
percentage of the position. -/
structure TakeProfit where
  price : ℚ
  size_pct : ℚ
deriving Repr, DecidableEq

/-- A request submitted to the exchange's place-order endpoint, carrying the
fields `BybitTrader.place_limit_order` passes to `session.place_order`
(category is always "linear" and is omitted). -/
structure OrderReq where
  symbol : String
  side : String
  orderType : String
  qty : ℚ
  price : Option ℚ
  stopPrice : Option ℚ
  timeInForce : String
  triggerBy : Option String
deriving Repr, DecidableEq

/-- The entry leg request (bybit_trader.py lines 143-151). -/
def entryRequest (bybit_symbol derivatives_side : String) (qty price : ℚ) : OrderReq where
  symbol := bybit_symbol
  side := derivatives_side
  orderType := "Limit"
  qty := qty
  price := some price
  stopPrice := none
  timeInForce := "GTC"
  triggerBy := none

/-- The conditional stop-loss request (bybit_trader.py lines 166-175). -/
def stopLossRequest (bybit_symbol sl_side : String) (qty stop_loss : ℚ) : OrderReq where
  symbol := bybit_symbol
  side := sl_side
  orderType := "Stop"
  qty := qty
  price := none
  stopPrice := some stop_loss
  timeInForce := "GTC"
  triggerBy := some ("LastPrice")

/-- One take-profit leg request (bybit_trader.py lines 186-195): the leg
quantity is `qty * (size_pct / 100)`. -/
def takeProfitRequest (bybit_symbol tp_side : String) (qty : ℚ) (tp : TakeProfit) : OrderReq where
  symbol := bybit_symbol
  side := tp_side
  orderType := "Limit"
  qty := qty * (tp.size_pct / 100)
  price := some tp.price
  stopPrice := none
  timeInForce := "GTC"
  triggerBy := none

/-- The take-profit loop (bybit_trader.py lines 184-201): submits one request
per take-profit in order; the response at call index `idx` comes from the
oracle; only responses with retCode 0 are collected into `tp_responses`
(rejections are logged and skipped), and a rejection never stops the loop. -/
def placeTakeProfits (oracle : Nat → OrderResp) (bybit_symbol tp_side : String) (qty : ℚ) :
    List TakeProfit → Nat → List OrderResp × List OrderReq
  | [], _ => ([], [])
  | tp :: rest, idx =>
    let resp := oracle idx
    let r := placeTakeProfits oracle bybit_symbol tp_side qty rest (idx + 1)
    (if resp.retCode = 0 then resp :: r.1 else r.1,
     takeProfitRequest bybit_symbol tp_side qty tp :: r.2)

/-- The value returned by `place_limit_order`: either the exchange's raw
rejection payload for the entry leg (a dict with no 'success' key), or the
bracket dict `{'success': True, 'main_order': …, 'stop_loss': …,
'take_profits': …}`. -/
inductive PLOResult where
  | entryRejected (resp : OrderResp)
  | bracket (main_order stop_loss_resp : OrderResp) (take_profit_resps : List OrderResp)
deriving Repr, DecidableEq

/-- The `result['success']` lookup performed by `execute_trade`: the raw
rejection payload has no such key (`none`); the bracket dict carries
`True`. -/
def PLOResult.successKey : PLOResult → Option Bool
  | .entryRejected _ => none
  | .bracket _ _ _ => some true

/-- `BybitTrader.place_limit_order` (bybit_trader.py lines 132-212), also
returning the list of requests submitted to the exchange, in order.  The
oracle gives the exchange's response to the n-th place-order call of this
bracket.  The unused `timeout_min` parameter is kept from the source. -/
def place_limit_order (oracle : Nat → OrderResp) (symbol side : String)
    (qty price stop_loss : ℚ) (take_profits : List TakeProfit) (_timeout_min : Int) :
    PLOResult × List OrderReq :=
  let bybit_symbol := stripSlash symbol
  let derivatives_side := if strLower side = "long" then "Buy" else "Sell"
  let entryReq := entryRequest bybit_symbol derivatives_side qty price
  let order_response := oracle 0
  if order_response.retCode ≠ 0 then
    (.entryRejected order_response, [entryReq])
  else
    let sl_side := if strLower side = "long" then "Sell" else "Buy"
    let slReq := stopLossRequest bybit_symbol sl_side qty stop_loss
    let sl_response := oracle 1
    let tp_side := if strLower side = "long" then "Sell" else "Buy"
    let tpr := placeTakeProfits oracle bybit_symbol tp_side qty take_profits 2
    (.bracket order_response sl_response tpr.1, entryReq :: slReq :: tpr.2)

end Cryptoshare

namespace Cryptoshare

/-- The requests submitted by the take-profit loop are exactly one per
take-profit, in order, independent of the oracle's responses. -/
theorem placeTakeProfits_reqs (oracle : Nat → OrderResp) (bs ts : String) (qty : ℚ)
    (tps : List TakeProfit) (idx : Nat) :
    (placeTakeProfits oracle bs ts qty tps idx).2 = tps.map (takeProfitRequest bs ts qty) := by
  induction tps generalizing idx with
  | nil => rfl
  | cons tp rest ih => simp [placeTakeProfits, ih]

/-- Normal form of `place_limit_order` when the entry leg is rejected. -/
theorem place_limit_order_rejected (oracle : Nat → OrderResp) (symbol side : String)
    (qty price stop_loss : ℚ) (take_profits : List TakeProfit) (tm : Int)
    (hrej : (oracle 0).retCode ≠ 0) :
    place_limit_order oracle symbol side qty price stop_loss take_profits tm
      = (.entryRejected (oracle 0),
         [entryRequest (stripSlash symbol)
            (if strLower side = "long" then "Buy" else "Sell") qty price]) := by
  simp [place_limit_order, hrej]

/-- Normal form of `place_limit_order` when the entry leg is accepted. -/
theorem place_limit_order_accepted (oracle : Nat → OrderResp) (symbol side : String)
    (qty price stop_loss : ℚ) (take_profits : List TakeProfit) (tm : Int)
    (hok : (oracle 0).retCode = 0) :
    place_limit_order oracle symbol side qty price stop_loss take_profits tm
      = (.bracket (oracle 0) (oracle 1)
           (placeTakeProfits oracle (stripSlash symbol)
             (if strLower side = "long" then "Sell" else "Buy") qty take_profits 2).1,
         entryRequest (stripSlash symbol)
             (if strLower side = "long" then "Buy" else "Sell") qty price
           :: stopLossRequest (stripSlash symbol)
             (if strLower side = "long" then "Sell" else "Buy") qty stop_loss
           :: take_profits.map (takeProfitRequest (stripSlash symbol)
             (if strLower side = "long" then "Sell" else "Buy") qty)) := by
  simp [place_limit_order, hok, placeTakeProfits_reqs]

end Cryptoshare

namespace Cryptoshare

/-- C3: whenever the stop distance `|entryPrice - stopLoss|` is zero, or the
USDT balance is zero or unavailable, `calculate_position_size` returns the
zero sentinel; the division `riskAmount / stopDistance` sits under the
`stopDistance ≠ 0` guard in the definition. -/
theorem claim3_zero_sentinel (risk_pct stop_loss entry_price min_order_qty qty_step : ℚ)
    (usdt_balance : Option ℚ)
    (h : |entry_price - stop_loss| = 0 ∨ usdt_balance = none ∨ usdt_balance = some 0) :
    calculate_position_size risk_pct stop_loss entry_price usdt_balance min_order_qty qty_step
      = 0 := by
  rcases h with h | h | h
  · cases usdt_balance with
    | none => rfl
    | some bal =>
      by_cases hb : bal = 0 <;> simp [calculate_position_size, hb, h]
  · subst h; rfl
  · subst h; simp [calculate_position_size]

/-- Witness for C3 at concrete inputs: zero stop distance gives the zero
sentinel. -/
theorem claim3_witness :
    calculate_position_size 0.4 44.64 44.64 (some 1000) 0.001 0.001 = 0 :=
  claim3_zero_sentinel 0.4 44.64 44.64 0.001 0.001 (some 1000) (by norm_num)

/-- Casting `max` over `ℤ` through multiplication by a nonneg step. -/
theorem max_intCast_mul (a b : ℤ) (s : ℚ) (hs : 0 ≤ s) :
    max ((a : ℚ) * s) ((b : ℚ) * s) = ((max a b : ℤ) : ℚ) * s := by
  rcases le_total a b with h | h
  · rw [max_eq_right h, max_eq_right (mul_le_mul_of_nonneg_right (by exact_mod_cast h) hs)]
  · rw [max_eq_left h, max_eq_left (mul_le_mul_of_nonneg_right (by exact_mod_cast h) hs)]

/-- C1 as stated is false: with qtyStep = 1 and minOrderQty = 1/2 (which is not
itself a multiple of the step), riskPct = 1/100, entry 100, stop 99, balance
1000, every hypothesis of the claim holds, yet the sizer returns 1/2, which is
not an integer multiple of qtyStep. -/
theorem claim1_counterexample :
    (0 : ℚ) < 1 / 100 ∧ (0 : ℚ) < 99 ∧ (0 : ℚ) < 100 ∧ (0 : ℚ) < 1 ∧
    (0 : ℚ) < |(100 : ℚ) - 99| ∧ (0 : ℚ) < 1000 ∧
    calculate_position_size (1 / 100) 99 100 (some 1000) (1 / 2) 1 = 1 / 2 ∧
    ¬ ∃ k : ℤ, (1 / 2 : ℚ) = (k : ℚ) * 1 := by
  refine ⟨by norm_num, by norm_num, by norm_num, by norm_num, by norm_num, by norm_num, ?_, ?_⟩
  · simp only [calculate_position_size]
    norm_num [abs_of_pos, max_def]
  · rintro ⟨k, hk⟩
    rw [mul_one] at hk
    have h2 : (2 : ℚ) * (k : ℚ) = 1 := by rw [← hk]; norm_num
    have h3 : (2 * k : ℤ) = 1 := by exact_mod_cast h2
    omega

/-- C1 amended: additionally assuming that minOrderQty is itself an integer
multiple of qtyStep, the quantity returned by `calculate_position_size` is a
non-negative integer multiple of qtyStep and is at least minOrderQty. -/
theorem claim1_amended_step_multiple
    (risk_pct stop_loss entry_price qty_step min_order_qty bal : ℚ) (k₀ : ℤ)
    (hr : 0 < risk_pct) (_hsl : 0 < stop_loss) (he : 0 < entry_price) (hs : 0 < qty_step)
    (hd : 0 < |entry_price - stop_loss|) (hb : 0 < bal)
    (hm : min_order_qty = (k₀ : ℚ) * qty_step) :
    (∃ k : ℤ, 0 ≤ k ∧
      calculate_position_size risk_pct stop_loss entry_price (some bal) min_order_qty qty_step
        = (k : ℚ) * qty_step) ∧
    min_order_qty ≤
      calculate_position_size risk_pct stop_loss entry_price (some bal) min_order_qty qty_step := by
  have hb' : bal ≠ 0 := ne_of_gt hb
  have hd' : |entry_price - stop_loss| ≠ 0 := ne_of_gt hd
  simp only [calculate_position_size]
  rw [if_neg hb', if_neg hd']
  have hraw : 0 ≤ bal * (risk_pct / 100) / |entry_price - stop_loss| / qty_step := by positivity
  have hfl : (0 : ℤ) ≤ ⌊bal * (risk_pct / 100) / |entry_price - stop_loss| / qty_step⌋ :=
    Int.floor_nonneg.mpr hraw
  split_ifs with hcond
  · have hfl5 : (0 : ℤ) ≤ ⌊(5 : ℚ) / entry_price / qty_step⌋ :=
      Int.floor_nonneg.mpr (by positivity)
    refine ⟨⟨max (⌊(5 : ℚ) / entry_price / qty_step⌋ + 1) k₀, ?_, ?_⟩, le_max_right _ _⟩
    · exact le_trans (by omega) (le_max_left _ _)
    · rw [hm, show ((⌊(5 : ℚ) / entry_price / qty_step⌋ : ℚ) + 1) = ((⌊(5 : ℚ) / entry_price / qty_step⌋ + 1 : ℤ) : ℚ) by push_cast; ring]
      exact max_intCast_mul _ _ _ hs.le
  · refine ⟨⟨max ⌊bal * (risk_pct / 100) / |entry_price - stop_loss| / qty_step⌋ k₀, ?_, ?_⟩,
      le_max_right _ _⟩
    · exact le_trans hfl (le_max_left _ _)
    · rw [hm]
      exact max_intCast_mul _ _ _ hs.le

/-- Witness for the amended C1 at concrete inputs (step 1/1000, minOrderQty
1/1000 = 1 × step). -/
theorem claim1_amended_witness :
    (∃ k : ℤ, 0 ≤ k ∧
      calculate_position_size 0.4 44.1336 44.64 (some 1000) (1 / 1000) (1 / 1000)
        = (k : ℚ) * (1 / 1000)) ∧
    (1 / 1000 : ℚ) ≤ calculate_position_size 0.4 44.1336 44.64 (some 1000) (1 / 1000) (1 / 1000) :=
  claim1_amended_step_multiple 0.4 44.1336 44.64 (1 / 1000) (1 / 1000) 1000 1
    (by norm_num) (by norm_num) (by norm_num) (by norm_num) (by norm_num) (by norm_num)
    (by norm_num)

/-- C2: whenever, after step-flooring and the minOrderQty clamp, the sized
quantity has notional below 5, the returned quantity equals
`(floor((5/entryPrice)/qtyStep) + 1) * qtyStep`, its notional is at least 5,
it is an integer multiple of qtyStep, and it is at least minOrderQty (the
final clamp never lowers it below the step multiple). -/
theorem claim2_min_notional_correction
    (risk_pct stop_loss entry_price qty_step min_order_qty bal : ℚ)
    (he : 0 < entry_price) (hs : 0 < qty_step) (hb : bal ≠ 0)
    (hd : |entry_price - stop_loss| ≠ 0)
    (htrig : max ((⌊bal * (risk_pct / 100) / |entry_price - stop_loss| / qty_step⌋ : ℚ) * qty_step)
        min_order_qty * entry_price < 5) :
    calculate_position_size risk_pct stop_loss entry_price (some bal) min_order_qty qty_step
      = ((⌊(5 : ℚ) / entry_price / qty_step⌋ : ℚ) + 1) * qty_step ∧
    5 ≤ calculate_position_size risk_pct stop_loss entry_price (some bal) min_order_qty qty_step
      * entry_price ∧
    (∃ k : ℤ,
      calculate_position_size risk_pct stop_loss entry_price (some bal) min_order_qty qty_step
        = (k : ℚ) * qty_step) ∧
    min_order_qty ≤
      calculate_position_size risk_pct stop_loss entry_price (some bal) min_order_qty qty_step := by
  have h1 : min_order_qty * entry_price < 5 :=
    lt_of_le_of_lt (mul_le_mul_of_nonneg_right (le_max_right _ _) he.le) htrig
  have h2 : (5 : ℚ) / entry_price / qty_step < (⌊(5 : ℚ) / entry_price / qty_step⌋ : ℚ) + 1 :=
    Int.lt_floor_add_one _
  have h3 : (5 : ℚ) / entry_price < ((⌊(5 : ℚ) / entry_price / qty_step⌋ : ℚ) + 1) * qty_step := by
    have := mul_lt_mul_of_pos_right h2 hs
    rwa [div_mul_cancel₀ _ (ne_of_gt hs)] at this
  have key : min_order_qty < ((⌊(5 : ℚ) / entry_price / qty_step⌋ : ℚ) + 1) * qty_step :=
    lt_trans ((lt_div_iff₀ he).mpr h1) h3
  have heval :
      calculate_position_size risk_pct stop_loss entry_price (some bal) min_order_qty qty_step
        = ((⌊(5 : ℚ) / entry_price / qty_step⌋ : ℚ) + 1) * qty_step := by
    simp only [calculate_position_size]
    rw [if_neg hb, if_neg hd, if_pos htrig, max_eq_left key.le]
  refine ⟨heval, ?_, ?_, ?_⟩
  · rw [heval]
    have := mul_lt_mul_of_pos_right h3 he
    rw [div_mul_cancel₀ _ (ne_of_gt he)] at this
    exact this.le
  · exact ⟨⌊(5 : ℚ) / entry_price / qty_step⌋ + 1, by rw [heval]; push_cast; ring⟩
  · rw [heval]; exact key.le

/-- Witness for C2 at concrete inputs (balance 1000, risk 0.4 %, entry 1,
stop 0, step 1, minOrderQty 1/1000: the standard sizing gives 4 with notional
4 < 5, and the correction returns 6). -/
theorem claim2_witness :
    calculate_position_size (2 / 5) 0 1 (some 1000) (1 / 1000) 1
      = ((⌊(5 : ℚ) / 1 / 1⌋ : ℚ) + 1) * 1 ∧
    5 ≤ calculate_position_size (2 / 5) 0 1 (some 1000) (1 / 1000) 1 * 1 ∧
    (∃ k : ℤ, calculate_position_size (2 / 5) 0 1 (some 1000) (1 / 1000) 1 = (k : ℚ) * 1) ∧
    (1 / 1000 : ℚ) ≤ calculate_position_size (2 / 5) 0 1 (some 1000) (1 / 1000) 1 :=
  claim2_min_notional_correction (2 / 5) 0 1 1 (1 / 1000) 1000
    (by norm_num) (by norm_num) (by norm_num) (by norm_num)
    (by norm_num [abs_of_pos, max_def])

/-- C9: the documented scenario.  With balance 1000 USDT, riskPct 0.4,
entry 44.64, stop 44.1336, qtyStep 0.001 and minOrderQty 0.001, the risk
amount is 4, the stop distance is 0.5064, the raw quantity 4 / 0.5064 floors
to the step multiple 7.898, the notional 7.898 × 44.64 is at least 5 so no
floor correction applies, and the sizer returns 7.898 exactly. -/
theorem claim9_scenario :
    (1000 : ℚ) * (0.4 / 100) = 4 ∧
    |(44.64 : ℚ) - 44.1336| = 0.5064 ∧
    ((⌊((4 : ℚ) / 0.5064) / 0.001⌋ : ℚ)) * 0.001 = 7.898 ∧
    (5 : ℚ) ≤ 7.898 * 44.64 ∧
    calculate_position_size 0.4 44.1336 44.64 (some 1000) 0.001 0.001 = 7.898 := by
  refine ⟨by norm_num, by norm_num, by norm_num, by norm_num, ?_⟩
  simp only [calculate_position_size]
  norm_num [abs_of_pos, max_def]

end Cryptoshare

namespace Cryptoshare

/-- An exchange whose entry (first) response is a rejection. -/
def oracleEntryRejected : Nat → OrderResp := fun _ => ⟨10001, "rejected"⟩

/-- An exchange that accepts every order. -/
def oracleAllOk : Nat → OrderResp := fun n => ⟨0, toString n⟩

/-- An exchange that accepts the entry but rejects the stop-loss (the second
call). -/
def oracleStopLossRejected : Nat → OrderResp :=
  fun n => if n = 1 then ⟨10001, "rejected"⟩ else ⟨0, toString n⟩

/-- C4: if the entry order submission returns a non-zero return code,
`place_limit_order` returns the exchange's rejection payload and the list of
submitted requests is exactly the single entry request: zero stop-loss and
zero take-profit submissions. -/
theorem claim4_entry_rejection_aborts (oracle : Nat → OrderResp) (symbol side : String)
    (qty price stop_loss : ℚ) (take_profits : List TakeProfit) (tm : Int)
    (hrej : (oracle 0).retCode ≠ 0) :
    place_limit_order oracle symbol side qty price stop_loss take_profits tm
      = (.entryRejected (oracle 0),
         [entryRequest (stripSlash symbol)
            (if strLower side = "long" then "Buy" else "Sell") qty price]) :=
  place_limit_order_rejected oracle symbol side qty price stop_loss take_profits tm hrej

/-- Witness for C4: with a rejecting exchange, only the entry request is
submitted and the raw rejection payload is returned. -/
theorem claim4_witness :
    place_limit_order oracleEntryRejected ("HYPE/USDT") ("long") 1 2 3 [⟨4, 50⟩] 120
      = (.entryRejected (oracleEntryRejected 0),
         [entryRequest (stripSlash ("HYPE/USDT"))
            (if strLower ("long") = "long" then "Buy" else "Sell") 1 2]) :=
  claim4_entry_rejection_aborts oracleEntryRejected ("HYPE/USDT") ("long") 1 2 3 [⟨4, 50⟩] 120
    (by decide)

/-- C5: if the entry succeeds and the stop-loss submission is rejected, every
take-profit is still submitted, in order, and the returned result carries
`success = true`; a take-profit rejection never blocks later submissions
(the request list is one entry, one stop-loss, then one request per
take-profit, independent of the oracle's responses). -/
theorem claim5_stop_loss_failure_nonblocking (oracle : Nat → OrderResp) (symbol side : String)
    (qty price stop_loss : ℚ) (take_profits : List TakeProfit) (tm : Int)
    (hok : (oracle 0).retCode = 0) (_hslrej : (oracle 1).retCode ≠ 0) :
    (place_limit_order oracle symbol side qty price stop_loss take_profits tm).1.successKey
      = some true ∧
    (place_limit_order oracle symbol side qty price stop_loss take_profits tm).2
      = entryRequest (stripSlash symbol)
            (if strLower side = "long" then "Buy" else "Sell") qty price
          :: stopLossRequest (stripSlash symbol)
            (if strLower side = "long" then "Sell" else "Buy") qty stop_loss
          :: take_profits.map (takeProfitRequest (stripSlash symbol)
            (if strLower side = "long" then "Sell" else "Buy") qty) := by
  rw [place_limit_order_accepted oracle symbol side qty price stop_loss take_profits tm hok]
  exact ⟨rfl, rfl⟩

/-- Witness for C5: entry accepted, stop-loss rejected, two take-profits both
submitted and success still true. -/
theorem claim5_witness :
    (place_limit_order oracleStopLossRejected ("HYPE/USDT") ("long") 1 2 3
        [⟨4, 50⟩, ⟨5, 50⟩] 120).1.successKey = some true ∧
    (place_limit_order oracleStopLossRejected ("HYPE/USDT") ("long") 1 2 3
        [⟨4, 50⟩, ⟨5, 50⟩] 120).2
      = entryRequest (stripSlash ("HYPE/USDT"))
            (if strLower ("long") = "long" then "Buy" else "Sell") 1 2
          :: stopLossRequest (stripSlash ("HYPE/USDT"))
            (if strLower ("long") = "long" then "Sell" else "Buy") 1 3
          :: List.map (takeProfitRequest (stripSlash ("HYPE/USDT"))
            (if strLower ("long") = "long" then "Sell" else "Buy") 1) [⟨4, 50⟩, ⟨5, 50⟩] :=
  claim5_stop_loss_failure_nonblocking oracleStopLossRejected ("HYPE/USDT") ("long") 1 2 3
    [⟨4, 50⟩, ⟨5, 50⟩] 120 (by decide) (by decide)

/-- Exact-arithmetic sum of the take-profit leg quantities. -/
theorem sum_tp_leg_quantities (qty : ℚ) (tps : List TakeProfit) :
    (tps.map (fun tp => qty * (tp.size_pct / 100))).sum
      = qty * (tps.map (fun tp => tp.size_pct)).sum / 100 := by
  induction tps with
  | nil => simp
  | cons tp rest ih =>
    simp only [List.map_cons, List.sum_cons, ih]
    ring

/-- C6: when the entry is accepted, the submitted take-profit requests (the
request list after the entry and stop-loss legs) have quantities exactly
`qty * (size_pct / 100)` leg by leg, and their exact-arithmetic sum is
`qty * (Σ size_pct) / 100`. -/
theorem claim6_take_profit_quantities (oracle : Nat → OrderResp) (symbol side : String)
    (qty price stop_loss : ℚ) (take_profits : List TakeProfit) (tm : Int)
    (hok : (oracle 0).retCode = 0) :
    ((place_limit_order oracle symbol side qty price stop_loss take_profits tm).2.drop 2).map
        (fun req => req.qty)
      = take_profits.map (fun tp => qty * (tp.size_pct / 100)) ∧
    (((place_limit_order oracle symbol side qty price stop_loss take_profits tm).2.drop 2).map
        (fun req => req.qty)).sum
      = qty * (take_profits.map (fun tp => tp.size_pct)).sum / 100 := by
  rw [place_limit_order_accepted oracle symbol side qty price stop_loss take_profits tm hok]
  have hmap : ((take_profits.map (takeProfitRequest (stripSlash symbol)
      (if strLower side = "long" then "Sell" else "Buy") qty)).map (fun req => req.qty))
      = take_profits.map (fun tp => qty * (tp.size_pct / 100)) := by
    rw [List.map_map]; rfl
  refine ⟨by simpa using hmap, ?_⟩
  simp only [List.drop_succ_cons, List.drop_zero, hmap]
  exact sum_tp_leg_quantities qty take_profits

/-- Witness for C6 at concrete inputs: legs 50 % and 25 % of qty 8. -/
theorem claim6_witness :
    ((place_limit_order oracleAllOk ("HYPE/USDT") ("long") 8 2 3
        [⟨4, 50⟩, ⟨5, 25⟩] 120).2.drop 2).map (fun req => req.qty)
      = List.map (fun tp => 8 * (tp.size_pct / 100)) ([⟨4, 50⟩, ⟨5, 25⟩] : List TakeProfit) ∧
    (((place_limit_order oracleAllOk ("HYPE/USDT") ("long") 8 2 3
        [⟨4, 50⟩, ⟨5, 25⟩] 120).2.drop 2).map (fun req => req.qty)).sum
      = 8 * (List.map (fun tp => tp.size_pct) ([⟨4, 50⟩, ⟨5, 25⟩] : List TakeProfit)).sum / 100 :=
  claim6_take_profit_quantities oracleAllOk ("HYPE/USDT") ("long") 8 2 3
    [⟨4, 50⟩, ⟨5, 25⟩] 120 (by decide)

/-- C7: direction-relative side mapping.  For a side that lowercases to
"long", the first submitted request (the entry) has side "Buy" and every
later request (stop-loss, take-profits) has side "Sell"; for "short", the
entry is "Sell" and every dependent request is "Buy". -/
theorem claim7_side_mapping (oracle : Nat → OrderResp) (symbol side : String)
    (qty price stop_loss : ℚ) (take_profits : List TakeProfit) (tm : Int) :
    (strLower side = "long" →
      ∃ hd tl, (place_limit_order oracle symbol side qty price stop_loss take_profits tm).2
          = hd :: tl ∧ hd.side = "Buy" ∧ ∀ req ∈ tl, req.side = "Sell") ∧
    (strLower side = "short" →
      ∃ hd tl, (place_limit_order oracle symbol side qty price stop_loss take_profits tm).2
          = hd :: tl ∧ hd.side = "Sell" ∧ ∀ req ∈ tl, req.side = "Buy") := by
  constructor
  · intro hlong
    by_cases hok : (oracle 0).retCode = 0
    · rw [place_limit_order_accepted oracle symbol side qty price stop_loss take_profits tm hok]
      refine ⟨_, _, rfl, by simp [hlong, entryRequest], ?_⟩
      intro req hreq
      rcases List.mem_cons.mp hreq with h | h
      · subst h; simp [hlong, stopLossRequest]
      · rcases List.mem_map.mp h with ⟨tp, _, rfl⟩
        simp [hlong, takeProfitRequest]
    · rw [place_limit_order_rejected oracle symbol side qty price stop_loss take_profits tm hok]
      exact ⟨_, _, rfl, by simp [hlong, entryRequest], by simp⟩
  · intro hshort
    have hnl : ¬ strLower side = "long" := by rw [hshort]; decide
    by_cases hok : (oracle 0).retCode = 0
    · rw [place_limit_order_accepted oracle symbol side qty price stop_loss take_profits tm hok]
      refine ⟨_, _, rfl, by simp [hnl, entryRequest], ?_⟩
      intro req hreq
      rcases List.mem_cons.mp hreq with h | h
      · subst h; simp [hnl, stopLossRequest]
      · rcases List.mem_map.mp h with ⟨tp, _, rfl⟩
        simp [hnl, takeProfitRequest]
    · rw [place_limit_order_rejected oracle symbol side qty price stop_loss take_profits tm hok]
      exact ⟨_, _, rfl, by simp [hnl, entryRequest], by simp⟩

/-- Witness for C7 with a "long" entry on an all-accepting exchange. -/
theorem claim7_witness :
    ∃ hd tl, (place_limit_order oracleAllOk ("HYPE/USDT") ("long") 1 2 3 [⟨4, 50⟩] 120).2
        = hd :: tl ∧ hd.side = "Buy" ∧ ∀ req ∈ tl, req.side = "Sell" :=
  (claim7_side_mapping oracleAllOk ("HYPE/USDT") ("long") 1 2 3 [⟨4, 50⟩] 120).1 (by decide)

end Cryptoshare

namespace Cryptoshare

/-- One element of `limit_plan['orders']`: a price and a size percentage. -/
structure EntryOrder where
  price : ℚ
  size_pct : ℚ
deriving Repr, DecidableEq

/-- `limit_plan['cancel_if']` (only `timeout_min` is consumed, and it is a
no-op passthrough). -/
structure CancelIf where
  timeout_min : Int
deriving Repr, DecidableEq

/-- The `risk` object; `execute_trade` reads `risk_per_trade_pct` with default
0.4. -/
structure Risk where
  risk_per_trade_pct : Option ℚ
deriving Repr, DecidableEq

/-- The `limit_plan` object.  `Option` models presence of each key; element
values are typed. -/
structure LimitPlan where
  orders : Option (List EntryOrder)
  stop_loss : Option ℚ
  take_profits : Option (List TakeProfit)
  cancel_if : Option CancelIf
deriving Repr, DecidableEq

/-- The `trade` object of the webhook payload. -/
structure TradeData where
  action : Option String
  symbol : Option String
  side : Option String
  risk : Option Risk
  limit_plan : Option LimitPlan
deriving Repr, DecidableEq

/-- The full webhook payload after JSON parsing. -/
structure Payload where
  intent : Option String
  trade : Option TradeData
deriving Repr, DecidableEq

/-- The instrument metadata consumed by the sizer (`lotSizeFilter`). -/
structure SymbolInfo where
  minOrderQty : ℚ
  qtyStep : ℚ
deriving Repr, DecidableEq

/-- The exchange gateway environment: the USDT balance lookup result
(`none` = account info unavailable), the instrument-info lookup result
(`none` = empty dict), and the response oracle for successive place-order
calls. -/
structure Exchange where
  account_balance : Option ℚ
  symbol_info : Option SymbolInfo
  oracle : Nat → OrderResp

/-- An external call made against the exchange gateway. -/
inductive ExCall where
  | balanceQuery
  | instrumentQuery (symbol : String)
  | placeOrderCall (req : OrderReq)
deriving Repr, DecidableEq

/-- The mapping returned by `execute_trade`: either
`{'success': False, 'error': …}` or the bracket dict forwarded from
`place_limit_order`.  Both carry a 'success' key. -/
inductive ExecResult where
  | failure (error : String)
  | bracketResult (r : PLOResult)
deriving Repr, DecidableEq

/-- The value of the 'success' key of an `execute_trade` result. -/
def ExecResult.successFlag : ExecResult → Bool
  | .failure _ => false
  | .bracketResult _ => true

/-- `BybitTrader.execute_trade` (bybit_trader.py lines 214-264), also
returning the list of exchange calls made, in order.  Python raises inside
the `try` at several spots, caught by the broad `except` into
`{'success': False, 'error': str(e)}`; those outcomes appear here as
explicit `.failure` results: the logging f-string at line 217 indexes
`trade_data['symbol']`/`['side']` before the required-field loop, so missing
symbol or side surfaces as a KeyError, not as the loop's message; missing or
empty `orders`, missing `stop_loss`, `take_profits` or `cancel_if` raise
while building the sizing/placement arguments; and `result['success']` on the
raw entry-rejection payload raises a KeyError caught the same way. -/
def execute_trade (env : Exchange) (trade_data : TradeData) : ExecResult × List ExCall :=
  match trade_data.symbol with
  | none => (.failure ("KeyError: symbol"), [])
  | some symbol =>
  match trade_data.side with
  | none => (.failure ("KeyError: side"), [])
  | some side =>
  match trade_data.limit_plan with
  | none => (.failure ("Missing required field: limit_plan"), [])
  | some limit_plan =>
  match trade_data.risk with
  | none => (.failure ("Missing required field: risk"), [])
  | some risk =>
  match env.symbol_info with
  | none => (.failure ("Failed to get symbol info for " ++ symbol), [.instrumentQuery symbol])
  | some si =>
  match limit_plan.orders with
  | none => (.failure ("KeyError: orders"), [.instrumentQuery symbol])
  | some [] => (.failure ("list index out of range"), [.instrumentQuery symbol])
  | some (o :: _) =>
  match limit_plan.stop_loss with
  | none => (.failure ("KeyError: stop_loss"), [.instrumentQuery symbol])
  | some stop_loss =>
    let entry_price := o.price
    let risk_pct := risk.risk_per_trade_pct.getD (2 / 5)
    let position_size :=
      calculate_position_size risk_pct stop_loss entry_price env.account_balance
        si.minOrderQty si.qtyStep
    if position_size = 0 then
      (.failure ("Failed to calculate position size"), [.instrumentQuery symbol, .balanceQuery])
    else
      match limit_plan.take_profits with
      | none => (.failure ("KeyError: take_profits"), [.instrumentQuery symbol, .balanceQuery])
      | some take_profits =>
      match limit_plan.cancel_if with
      | none => (.failure ("KeyError: cancel_if"), [.instrumentQuery symbol, .balanceQuery])
      | some ci =>
        let plo := place_limit_order env.oracle symbol side position_size entry_price
          stop_loss take_profits ci.timeout_min
        let calls := ExCall.instrumentQuery symbol :: ExCall.balanceQuery
          :: plo.2.map ExCall.placeOrderCall
        match (plo.1).successKey with
        | none => (.failure ("KeyError: success"), calls)
        | some _ => (.bracketResult plo.1, calls)

/-- `TradingWebhookHandler.validate_webhook_data` (webhook_server.py lines
101-137): intent must be "trade_decision"; trade must be present with action,
symbol, side, limit_plan, risk; limit_plan must carry orders, stop_loss and
take_profits keys with orders and take_profits non-empty lists. -/
def validate_webhook_data (data : Payload) : Bool :=
  match data.intent, data.trade with
  | some iv, some trade =>
    (iv == "trade_decision") &&
    trade.action.isSome && trade.symbol.isSome && trade.side.isSome &&
    trade.limit_plan.isSome && trade.risk.isSome &&
    (match trade.limit_plan with
     | some lp =>
       lp.orders.isSome && lp.stop_loss.isSome && lp.take_profits.isSome &&
       (match lp.orders with | some os => !os.isEmpty | none => false) &&
       (match lp.take_profits with | some ts => !ts.isEmpty | none => false)
     | none => false)
  | _, _ => false

/-- HTTP-level outcome of the webhook POST path. -/
inductive WebhookResponse where
  | accepted
  | errorResponse (status_code : Nat) (message : String)
deriving Repr, DecidableEq

/-- The webhook POST path after JSON parsing (webhook_server.py lines 64-84):
validate, and only on success dispatch `execute_trade` (in the source on a
detached background thread; modelled sequentially).  The HTTP response is
"accepted" regardless of the trade's outcome; validation failure responds 400
with no exchange call. -/
def process_webhook (env : Exchange) (data : Payload) : WebhookResponse × List ExCall :=
  if validate_webhook_data data then
    match data.trade with
    | some t => (.accepted, (execute_trade env t).2)
    | none => (.accepted, [])   -- unreachable: validation requires the trade field
  else
    (.errorResponse 400 ("Invalid webhook data format"), [])

/-- The violations listed by C8: symbol, side, limit_plan or risk absent, or
limit_plan lacking a non-empty orders list, a stop_loss, or a non-empty
take_profits list. -/
def violatesRequiredFieldCheck (t : TradeData) : Bool :=
  t.symbol.isNone || t.side.isNone || t.limit_plan.isNone || t.risk.isNone ||
  (match t.limit_plan with
   | none => true
   | some lp =>
     (match lp.orders with | none => true | some os => os.isEmpty) ||
     lp.stop_loss.isNone ||
     (match lp.take_profits with | none => true | some ts => ts.isEmpty))

end Cryptoshare

namespace Cryptoshare

/-- C8: any payload whose trade violates the required-field check is rejected
by the webhook path with the structured invalid-field error, and no exchange
call — no balance query, no instrument-info query, no order placement —
occurs. -/
theorem claim8_validation_no_exchange_calls (env : Exchange) (data : Payload) (t : TradeData)
    (ht : data.trade = some t) (hviol : violatesRequiredFieldCheck t = true) :
    process_webhook env data
      = (.errorResponse 400 ("Invalid webhook data format"), []) := by
  have hv : validate_webhook_data data = false := by
    rcases data with ⟨intent, trade⟩
    cases ht
    rcases intent with _ | iv
    · rfl
    · rcases t with ⟨action, symbol, side, risk, lp⟩
      rcases lp with _ | ⟨orders, stop_loss, take_profits, cancel_if⟩
      · simp [validate_webhook_data]
      · rcases symbol with _ | symbol <;>
          rcases side with _ | side <;>
            rcases risk with _ | risk <;>
              rcases orders with _ | (_ | ⟨o, os⟩) <;>
                rcases stop_loss with _ | d <;>
                  rcases take_profits with _ | (_ | ⟨tp, tps⟩) <;>
                    simp_all [validate_webhook_data, violatesRequiredFieldCheck]
  simp [process_webhook, hv]

/-- A concrete exchange environment for witnesses. -/
def envW : Exchange := ⟨some 1000, some ⟨1 / 1000, 1 / 1000⟩, oracleAllOk⟩

/-- A concrete trade object lacking the required `risk` field. -/
def tradeMissingRisk : TradeData :=
  ⟨some ("open_limit"), some ("HYPE/USDT"), some ("long"), none,
   some ⟨some [⟨44.64, 100⟩], some 44.1336, some [⟨45.1464, 30⟩], some ⟨120⟩⟩⟩

/-- Witness for C8: a payload missing `risk` is rejected with 400 and zero
exchange calls. -/
theorem claim8_witness :
    process_webhook envW ⟨some ("trade_decision"), some tradeMissingRisk⟩
      = (.errorResponse 400 ("Invalid webhook data format"), []) :=
  claim8_validation_no_exchange_calls envW ⟨some ("trade_decision"), some tradeMissingRisk⟩
    tradeMissingRisk rfl (by decide)

end Cryptoshare

namespace Cryptoshare

/-- C10: when the entry order is rejected, `place_limit_order` returns the
raw rejection payload, which carries no 'success' key; `execute_trade`'s
`result['success']` lookup therefore raises, the broad except converts it,
and `execute_trade` still returns a mapping whose 'success' key is false. -/
theorem claim10_entry_rejection_success_false
    (bal : Option ℚ) (si : SymbolInfo) (oracle : Nat → OrderResp)
    (action : Option String) (symbol side : String) (risk : Risk)
    (o : EntryOrder) (os : List EntryOrder) (stop_loss : ℚ)
    (take_profits : List TakeProfit) (ci : CancelIf)
    (hps : calculate_position_size (risk.risk_per_trade_pct.getD (2 / 5)) stop_loss o.price bal
        si.minOrderQty si.qtyStep ≠ 0)
    (hrej : (oracle 0).retCode ≠ 0) :
    (place_limit_order oracle symbol side
        (calculate_position_size (risk.risk_per_trade_pct.getD (2 / 5)) stop_loss o.price bal
          si.minOrderQty si.qtyStep) o.price stop_loss take_profits ci.timeout_min).1.successKey
      = none ∧
    (execute_trade ⟨bal, some si, oracle⟩
        ⟨action, some symbol, some side, some risk,
         some ⟨some (o :: os), some stop_loss, some take_profits, some ci⟩⟩).1
      = .failure ("KeyError: success") ∧
    (execute_trade ⟨bal, some si, oracle⟩
        ⟨action, some symbol, some side, some risk,
         some ⟨some (o :: os), some stop_loss, some take_profits, some ci⟩⟩).1.successFlag
      = false := by
  have h1 : (place_limit_order oracle symbol side
      (calculate_position_size (risk.risk_per_trade_pct.getD (2 / 5)) stop_loss o.price bal
        si.minOrderQty si.qtyStep) o.price stop_loss take_profits ci.timeout_min).1
      = .entryRejected (oracle 0) := by
    rw [place_limit_order_rejected oracle symbol side _ o.price stop_loss take_profits
      ci.timeout_min hrej]
  refine ⟨by rw [h1]; rfl, ?_, ?_⟩ <;>
    simp [execute_trade, hps, h1, PLOResult.successKey, ExecResult.successFlag]

/-- Witness for C10: a rejecting exchange with a fully-populated trade; the
executor returns success = false while the placer's raw payload had no
success key. -/
theorem claim10_witness :
    (place_limit_order oracleEntryRejected ("HYPE/USDT") ("long")
        (calculate_position_size ((Risk.mk none).risk_per_trade_pct.getD (2 / 5)) 90
          (EntryOrder.mk 100 100).price (some 1000) (1 / 1000) (1 / 1000))
        (EntryOrder.mk 100 100).price 90 [⟨110, 100⟩] (CancelIf.mk 120).timeout_min).1.successKey
      = none ∧
    (execute_trade ⟨some 1000, some ⟨1 / 1000, 1 / 1000⟩, oracleEntryRejected⟩
        ⟨none, some ("HYPE/USDT"), some ("long"), some (Risk.mk none),
         some ⟨some [EntryOrder.mk 100 100], some 90, some [⟨110, 100⟩],
           some (CancelIf.mk 120)⟩⟩).1
      = .failure ("KeyError: success") ∧
    (execute_trade ⟨some 1000, some ⟨1 / 1000, 1 / 1000⟩, oracleEntryRejected⟩
        ⟨none, some ("HYPE/USDT"), some ("long"), some (Risk.mk none),
         some ⟨some [EntryOrder.mk 100 100], some 90, some [⟨110, 100⟩],
           some (CancelIf.mk 120)⟩⟩).1.successFlag
      = false :=
  claim10_entry_rejection_success_false (some 1000) ⟨1 / 1000, 1 / 1000⟩ oracleEntryRejected
    none ("HYPE/USDT") ("long") (Risk.mk none) (EntryOrder.mk 100 100) [] 90
    [⟨110, 100⟩] (CancelIf.mk 120)
    (by norm_num [calculate_position_size, abs_of_pos, max_def])
    (by decide)

end Cryptoshare
